import Mathlib

/-!
Shallow embedding of src/server.py, an adventure-game socket server.

The Python class `Server` keeps its session state in instance fields
(`input_buffer`, `output_buffer`, `done`, `room`, `moves`).  We embed that
state as a Lean structure and each method as a function on it.  Python is
dynamically typed and the source assigns a *bound method object* (not a
string) to `output_buffer` in one branch of `move`, so the buffer is
embedded as a sum type `PyVal`; the Python exceptions the source can raise
(`KeyError` from the dispatch-dict lookup, `TypeError` from `method + str`,
`AttributeError` from calling `.strip()` on the un-invoked `decode` method)
are embedded as an explicit error type, and fallible methods return
`Except`.  A ghost field `calls` logs every action-handler invocation
(name, argument) so that dispatch counts can be stated; it influences
nothing else.  The field `sent` records, in order, the payloads handed to
`sendall` by `push_output` - the observable wire output.

Python string primitives used by the source (`str.split(" ")`,
`" ".join`, `str.startswith`, slicing `s[n:]`) are embedded by structural
recursion on the character list so that all definitions compute inside the
kernel.
-/

namespace AdventureServer

/-- Value stored in `output_buffer`: Python lets the source put either a
string or (by a bug in `move`) a bound-method object there. -/
inductive PyVal where
  | str (s : String)
  | method (name : String)
  deriving DecidableEq, Repr

/-- Python exceptions the embedded code can raise. -/
inductive PyError where
  | keyError
  | typeError
  | attributeError
  deriving DecidableEq, Repr

/-- The mutable instance state of `Server` relevant to the session logic,
plus `sent` (payloads passed to `sendall`, in order) and the ghost
invocation log `calls`. -/
structure ServerState where
  input_buffer : String
  output_buffer : PyVal
  done : Bool
  room : Int
  sent : List String
  calls : List (String × Option String)
  deriving DecidableEq, Repr

/-- Server.__init__ (src/server.py lines 48-66): empty buffers, done False,
room 0. -/
def initState : ServerState :=
  { input_buffer := ""
    output_buffer := .str ""
    done := false
    room := 0
    sent := []
    calls := [] }

/-- Class attribute `game_name` (line 46). -/
def game_name : String := "Realms of Venture"

/-- The 22 spaces contributed to each description string by the
backslash line continuations at source lines 92, 94, 96, 98 (a Python
backslash-newline inside a string literal keeps the next line's leading
spaces as part of the string). -/
def continuationIndent : String := "                      "

/-- The list `room_descs` built inside `room_description`
(lines 91-98), with the continuation whitespace reproduced exactly. -/
def room_descs : List String :=
  ["You are in a large room with stone walls and a wooden door " ++
      continuationIndent ++ "on the north, east, and west walls.",
   "You enter a small storage room with shelves full of " ++
      continuationIndent ++ "strange jars.",
   "This room has fancy red wallpaper and a skylight in the " ++
      continuationIndent ++ "ceiling.",
   "There appears to be nothing in this room but a marble " ++
      continuationIndent ++ "statue of a wizard."]

/-- The fixed diagnostic returned when the list lookup raises IndexError
(line 102). -/
def roomSystemDiagnostic : String :=
  "Whoops, something went wrong with the room system."

/-- Server.room_description (lines 80-102): `room_descs[room_number]`
with Python list-indexing semantics - a negative index counts from the
end of the list, an out-of-range index raises IndexError, which the
source catches and converts to the fixed diagnostic string.  Total by
construction: no exception escapes. -/
def room_description (room_number : Int) : String :=
  if 0 ≤ room_number ∧ room_number < (room_descs.length : Int) then
    room_descs.getD room_number.toNat ""
  else if -(room_descs.length : Int) ≤ room_number ∧ room_number < 0 then
    room_descs.getD (room_number + (room_descs.length : Int)).toNat ""
  else
    roomSystemDiagnostic

/-- Server.greet (lines 104-116): overwrite the output buffer with the
formatted welcome message. -/
def greet (st : ServerState) : ServerState :=
  { st with output_buffer :=
      PyVal.str ("Welcome to " ++ game_name ++ "! " ++ room_description st.room) }

/-- Python s.split(" ") on the character list: split at every single
space, keeping empty pieces; the empty string yields [""]. -/
def splitSpacesChars : List Char → List (List Char)
  | [] => [[]]
  | c :: rest =>
    let r := splitSpacesChars rest
    if c = ' ' then [] :: r
    else
      match r with
      | [] => [[c]]
      | w :: ws => (c :: w) :: ws

/-- Python input_buffer.split(" ") (line 211). -/
def pySplitSpace (s : String) : List String :=
  (splitSpacesChars s.data).map (fun cs => String.mk cs)

/-- Python " ".join(parts) (line 214). -/
def pyJoinSpace : List String → String
  | [] => ""
  | [w] => w
  | w :: ws => w ++ " " ++ pyJoinSpace ws

/-- Python s.startswith(p) (lines 221, 224). -/
def pyStartsWith (s p : String) : Bool :=
  p.data.isPrefixOf s.data

/-- Python slice s[n:] (lines 222, 225): drop the first n characters. -/
def pyDrop (s : String) (n : Nat) : String :=
  String.mk (s.data.drop n)

/-- Python `buffer + text` where the left side is the output buffer: if
the buffer holds a string the strings concatenate; if it holds a bound
method object the addition raises TypeError. -/
def pyAddStr : PyVal → String → Except PyError PyVal
  | .str a, b => .ok (.str (a ++ b))
  | .method _, _ => .error .typeError

/-- Ghost instrumentation: record that a handler was entered, with its
argument (none embeds the Python value None passed at line 228). -/
def logCall (st : ServerState) (name : String) (arg : Option String) :
    ServerState :=
  { st with calls := st.calls ++ [(name, arg)] }

/-- The instance-variable move dict (lines 61-66): keys are
(current_room, direction) pairs, values the destination rooms. -/
def moves : List ((Int × String) × Int) :=
  [((0, "north"), 3),
   ((0, "east"), 2),
   ((0, "west"), 1),
   ((1, "east"), 0),
   ((2, "west"), 0),
   ((3, "south"), 0)]

/-- Dict lookup self.moves[(room, direction)] as an Option (none embeds
the KeyError branch, which `move` catches). -/
def movesLookup (room : Int) (direction : String) : Option Int :=
  (moves.find? (fun e => e.1.1 == room && e.1.2 == direction)).map
    (fun e => e.2)

/-- Server.move (lines 135-166).  On a hit the source first assigns the
destination to `self.room` and then assigns `self.room_description` -
the bound method object itself, NOT a call to it - to the output buffer
(line 164).  On a KeyError it overwrites the buffer with the fixed
text.  Total: the only exception, KeyError, is caught inside. -/
def move (st : ServerState) (argument : String) : ServerState :=
  let st := logCall st "move" (some argument)
  match movesLookup st.room argument with
  | some dest =>
      { st with room := dest, output_buffer := .method "room_description" }
  | none =>
      { st with output_buffer := .str "You can't go that way from here!" }

/-- Server.say (lines 168-182): appends (with +=, not overwrite) the
formatted utterance to the output buffer.  Raises TypeError if the
buffer currently holds a method object. -/
def say (st : ServerState) (argument : String) :
    Except (PyError × ServerState) ServerState :=
  let st := logCall st "say" (some argument)
  match pyAddStr st.output_buffer ("You say: \"" ++ argument ++ "\"") with
  | .ok b => .ok { st with output_buffer := b }
  | .error e => .error (e, st)

/-- Server.push_output (lines 231-240): sendall(b"OK! " +
output_buffer.encode() + b"\n").  If the buffer holds a method object,
`.encode()` raises AttributeError. -/
def push_output (st : ServerState) :
    Except (PyError × ServerState) ServerState :=
  match st.output_buffer with
  | .str s => .ok { st with sent := st.sent ++ ["OK! " ++ s ++ "\n"] }
  | .method _ => .error (.attributeError, st)

/-- Server.quit (lines 184-198): append "Goodbye!" to the buffer (+=),
push the output itself, then set done to True. -/
def quit (st : ServerState) (argument : Option String) :
    Except (PyError × ServerState) ServerState :=
  let st := logCall st "quit" argument
  match pyAddStr st.output_buffer "Goodbye!" with
  | .error e => .error (e, st)
  | .ok b =>
      match push_output { st with output_buffer := b } with
      | .error e => .error e
      | .ok st2 => .ok { st2 with done := true }

/-- The dispatch-dict call of route, lines 216-219: build the dict,
index it with the verb - a KeyError is raised before any handler runs
when the verb is not quit/move/say - and call the handler on the joined
argument string. -/
def dispatchTable (st : ServerState) (command arguments : String) :
    Except (PyError × ServerState) ServerState :=
  match command with
  | "quit" => quit st (some arguments)
  | "move" => .ok (move st arguments)
  | "say" => say st arguments
  | _ => .error (.keyError, st)

/-- The redundant conditional dispatch of route, lines 221-228: on the
very same input line, re-invoke say for a line starting "say ", move
for a line starting "move " (with slice arguments), and quit with
argument None for the exact line "quit". -/
def redispatch (st1 : ServerState) : Except (PyError × ServerState) ServerState :=
  if pyStartsWith st1.input_buffer "say " then
    say st1 (pyDrop st1.input_buffer 4)
  else if pyStartsWith st1.input_buffer "move " then
    .ok (move st1 (pyDrop st1.input_buffer 5))
  else if st1.input_buffer == "quit" then
    quit st1 none
  else
    .ok st1

/-- Server.route (lines 200-229): split the input buffer on spaces, pop
the verb, join the rest back with spaces, run the dispatch-dict call
(lines 216-219), and then - bug kept from the source - run the
conditional dispatch of lines 221-228 on the same line. -/
def route (st : ServerState) : Except (PyError × ServerState) ServerState :=
  let received := pySplitSpace st.input_buffer
  let command := received.headD ""
  let arguments := pyJoinSpace (received.drop 1)
  match dispatchTable st command arguments with
  | .error e => .error e
  | .ok st1 => redispatch st1

/-- The state carried by a route outcome, whether it returned normally
or an exception escaped. -/
def stateOf : Except (PyError × ServerState) ServerState → ServerState
  | .ok st => st
  | .error (_, st) => st

/-- The ghost invocation log of a route outcome. -/
def callsOf (r : Except (PyError × ServerState) ServerState) :
    List (String × Option String) :=
  (stateOf r).calls

/-- One iteration of the serve while-loop body (lines 247-250):
get_input; route; push_output - with get_input idealized as delivering
the decoded line into input_buffer.  (get_input as written never
produces a line at all: see get_input_no_recv_attribute_error.  This
definition models the command-processing layer the routing claims are
about.) -/
def loopBody (st : ServerState) (line : String) :
    Except (PyError × ServerState) ServerState :=
  match route { st with input_buffer := line } with
  | .error e => .error e
  | .ok st1 => push_output st1

/-- The serve loop (lines 247-250) over a list of incoming lines: while
not done, process one line; an escaping exception ends the session in
the state it left behind. -/
def runLines (st : ServerState) : List String → ServerState
  | [] => st
  | line :: rest =>
    if st.done then st
    else
      match loopBody st line with
      | .ok st1 => runLines st1 rest
      | .error (_, st1) => st1

/-- The state right before serve's while loop: greet then push_output
(lines 243-245; connect only touches sockets). -/
def preLoopState : ServerState :=
  stateOf (push_output (greet initState))

/-- Outcome of Server.get_input: either a Python exception after some
number of recv calls, or blocking forever on recv. -/
inductive GetInputOutcome where
  | raised (e : PyError) (recvCalls : Nat)
  | blocked
  deriving DecidableEq, Repr

/-- The while loop of get_input (lines 129-130): while b"\n" not in
received, received += recv(16).  The client byte stream is given as the
list of successive recv results (byte values); if the stream is
exhausted while the guard still holds, recv blocks. -/
def getInputLoop (received : List Nat) (recvCalls : Nat)
    (chunks : List (List Nat)) : Except Unit (List Nat × Nat) :=
  if 10 ∈ received then .ok (received, recvCalls)
  else
    match chunks with
    | [] => .error ()
    | c :: rest => getInputLoop (received ++ c) (recvCalls + 1) rest

/-- Server.get_input (lines 118-132).  `received` is initialized to
b"\n" (line 128), so the loop guard is false at entry.  After the loop,
line 132 evaluates `received.decode.strip()`: `received.decode` is the
bound method object (the call parentheses are missing), and a method
object has no attribute `strip`, so an AttributeError is raised
unconditionally - `input_buffer` is never assigned. -/
def get_input (chunks : List (List Nat)) : GetInputOutcome :=
  match getInputLoop [10] 0 chunks with
  | .ok (_, recvCalls) => .raised .attributeError recvCalls
  | .error () => .blocked

/-- Helper for stating properties: does the character list contain the
pattern as a contiguous sublist. -/
def charsContain (pat : List Char) : List Char → Bool
  | [] => pat.isEmpty
  | c :: rest => pat.isPrefixOf (c :: rest) || charsContain pat rest

/-- Helper for stating properties: does the string contain the pattern
as a substring. -/
def hasSubstring (s pat : String) : Bool :=
  charsContain pat.data s.data

/-- Invariant for claim C8: the current room is one of the four rooms of
the map. -/
abbrev RoomOk (st : ServerState) : Prop :=
  st.room ∈ ([0, 1, 2, 3] : List Int)

/-- C1: the claim says route performs exactly one dispatch per input
line.  The code violates it: routing the single line "say hi" from the
initial state enters the say handler twice (once from the dispatch-dict
call of lines 216-219, once from the conditional dispatch of lines
221-223), as the ghost invocation log shows. -/
theorem route_say_line_invokes_handler_twice :
    callsOf (route { initState with input_buffer := "say hi" }) =
      [("say", some "hi"), ("say", some "hi")] := by
  rfl

/-- C2: the claim says a valid move sets the room to the destination and
the response to the destination room's description string.  The code
sets the room correctly but assigns the bound method object
`self.room_description` itself (line 164), not the description string,
to the output buffer. -/
theorem move_valid_stores_method_not_description :
    (move initState "north").room = 3 ∧
    (move initState "north").output_buffer = PyVal.method "room_description" ∧
    (move initState "north").output_buffer ≠ PyVal.str (room_description 3) := by
  refine ⟨rfl, rfl, ?_⟩
  intro h
  simp [move, initState, movesLookup, moves, logCall] at h

/-- C3: the claim says an unknown verb (including the empty verb of a
blank line) yields a fixed "unrecognized command" response with the
session state unchanged and no escaping exception.  The code instead
raises KeyError from the dispatch-dict lookup (line 219) with no
response written, and the serve loop has no handler for it: routing
"look around" after the greeting leaves the invocation log empty, sends
nothing beyond the greeting, and the following line is never processed. -/
theorem route_unknown_verb_raises_keyerror :
    route { initState with input_buffer := "look around" } =
      .error (.keyError, { initState with input_buffer := "look around" }) ∧
    route { initState with input_buffer := "" } =
      .error (.keyError, { initState with input_buffer := "" }) ∧
    (runLines preLoopState ["look around", "say hi"]).calls = [] ∧
    (runLines preLoopState ["look around", "say hi"]).sent.length = 1 := by
  refine ⟨rfl, rfl, rfl, rfl⟩

/-- C4: the claim describes newline framing with buffering across recv
calls.  The code initializes `received` to b"\n" (line 128), so the
accumulation loop never runs - zero recv calls for EVERY client byte
stream - and line 132 then evaluates `received.decode.strip()`, raising
AttributeError because the decode method is never invoked. -/
theorem get_input_never_recvs_always_attribute_error
    (chunks : List (List Nat)) :
    get_input chunks = .raised .attributeError 0 := by
  have h : getInputLoop [10] 0 chunks = .ok ([10], 0) := by
    cases chunks <;> simp [getInputLoop]
  simp [get_input, h]

/-- C6: the claim says say leaves room and done unchanged and produces
exactly the utterance wrapped once in the quoting template.  Room and
done are indeed unchanged, but because route dispatches twice and say
appends with += (line 182), the buffer after routing "say hi" holds the
template twice, not once. -/
theorem say_line_response_double_wrapped :
    (stateOf (route { initState with input_buffer := "say hi" })).room =
      initState.room ∧
    (stateOf (route { initState with input_buffer := "say hi" })).done =
      initState.done ∧
    (stateOf (route { initState with input_buffer := "say hi" })).output_buffer =
      PyVal.str "You say: \"hi\"You say: \"hi\"" ∧
    (stateOf (route { initState with input_buffer := "say hi" })).output_buffer ≠
      PyVal.str "You say: \"hi\"" := by
  refine ⟨rfl, rfl, rfl, ?_⟩
  decide

/-- C9: starting in room 0, routing the line "move north" and then the
line "move south" returns the session to room 0 (this holds even though
each line is double-dispatched: the second move of each line is an
illegal edge and leaves the room unchanged). -/
theorem move_north_then_south_roundtrip :
    (runLines initState ["move north", "move south"]).room = 0 := by
  rfl

/-- C5: the claim says quit sets done, the farewell is delivered exactly
once, the argument is irrelevant, and nothing is processed after done.
The code does set done, ignores the argument, and the loop reads no
further line once done holds - but the farewell is NOT delivered exactly
once: routing the line "quit" after the greeting enters the quit handler
twice (double dispatch), each entry appends "Goodbye!" and pushes the
buffer itself (line 197), and the serve loop pushes a third time, so
three sent messages contain the farewell. -/
theorem quit_line_farewell_sent_three_times :
    (stateOf (loopBody preLoopState "quit")).done = true ∧
    (stateOf (loopBody preLoopState "quit")).calls =
      [("quit", some ""), ("quit", none)] ∧
    ((stateOf (loopBody preLoopState "quit")).sent.countP
      (fun s => hasSubstring s "Goodbye!")) = 3 ∧
    runLines (stateOf (loopBody preLoopState "quit")) ["say hi"] =
      stateOf (loopBody preLoopState "quit") := by
  refine ⟨rfl, rfl, rfl, rfl⟩

/-- C7: for every (room, direction) pair absent from the move dict -
whatever string the direction argument is - move catches the KeyError
(lines 162-166), leaves the room and the done flag unchanged, and
overwrites the buffer with the fixed text.  The handler is a total
function of the state: no error leaves it. -/
theorem move_absent_edge_leaves_state (st : ServerState) (argument : String)
    (h : movesLookup st.room argument = none) :
    (move st argument).room = st.room ∧
    (move st argument).output_buffer =
      PyVal.str "You can't go that way from here!" ∧
    (move st argument).done = st.done := by
  unfold move logCall
  simp only
  rw [h]
  exact ⟨rfl, rfl, rfl⟩

/-- Witness for C7 at a concrete input: (0, "south") is not an edge of
the map. -/
theorem move_absent_edge_leaves_state_witness :
    (move initState "south").room = initState.room ∧
    (move initState "south").output_buffer =
      PyVal.str "You can't go that way from here!" ∧
    (move initState "south").done = initState.done :=
  move_absent_edge_leaves_state initState "south" (by decide)

/-- C10: room_description is total on the integers (the IndexError of an
out-of-range index is caught and converted to the fixed diagnostic): for
every room_number at least 4 it returns the diagnostic, and for every
room_number in -4..-1 Python negative indexing returns one of the four
regular room descriptions, not the diagnostic. -/
theorem room_description_total_on_int (n : Int) :
    (4 ≤ n → room_description n = roomSystemDiagnostic) ∧
    (-4 ≤ n → n < 0 →
      room_description n ∈ room_descs ∧
      room_description n ≠ roomSystemDiagnostic) := by
  constructor
  · intro h4
    have hlen : (room_descs.length : Int) = 4 := by decide
    unfold room_description
    rw [hlen, if_neg (by omega), if_neg (by omega)]
  · intro hlo hhi
    interval_cases n <;> decide

/-- Witness for C10 at concrete inputs: room 7 yields the diagnostic,
room -1 yields a regular description. -/
theorem room_description_total_on_int_witness :
    room_description 7 = roomSystemDiagnostic ∧
    (room_description (-1) ∈ room_descs ∧
      room_description (-1) ≠ roomSystemDiagnostic) :=
  ⟨(room_description_total_on_int 7).1 (by decide),
   (room_description_total_on_int (-1)).2 (by decide) (by decide)⟩

theorem roomOk_of_eq {st st' : ServerState} (he : st'.room = st.room)
    (h : RoomOk st) : RoomOk st' := by
  show st'.room ∈ ([0, 1, 2, 3] : List Int)
  rw [he]
  exact h

theorem movesLookup_dest_mem (r : Int) (d : String) (v : Int)
    (h : movesLookup r d = some v) : v ∈ ([0, 1, 2, 3] : List Int) := by
  unfold movesLookup at h
  cases hf : List.find? (fun e => e.1.1 == r && e.1.2 == d) moves with
  | none => rw [hf] at h; simp at h
  | some e =>
      rw [hf] at h
      simp only [Option.map_some'] at h
      have hv : e.2 = v := Option.some.inj h
      have hm : e ∈ moves := List.mem_of_find?_eq_some hf
      subst hv
      fin_cases hm <;> decide

theorem roomOk_move (st : ServerState) (a : String) (h : RoomOk st) :
    RoomOk (move st a) := by
  unfold move logCall
  cases hl : movesLookup st.room a with
  | none => simp [hl]; simpa using h
  | some dest =>
      simp [hl]
      simpa using movesLookup_dest_mem st.room a dest hl

theorem stateOf_say_room (st : ServerState) (a : String) :
    (stateOf (say st a)).room = st.room ∧
    (stateOf (say st a)).done = st.done := by
  cases hb : st.output_buffer <;>
    simp [say, logCall, pyAddStr, stateOf, hb]

theorem stateOf_quit_room (st : ServerState) (a : Option String) :
    (stateOf (quit st a)).room = st.room := by
  cases hb : st.output_buffer <;>
    simp [quit, logCall, pyAddStr, push_output, stateOf, hb]

theorem stateOf_push_room (st : ServerState) :
    (stateOf (push_output st)).room = st.room := by
  cases hb : st.output_buffer <;> simp [push_output, stateOf, hb]

theorem roomOk_dispatchTable (st : ServerState) (c a : String)
    (h : RoomOk st) : RoomOk (stateOf (dispatchTable st c a)) := by
  unfold dispatchTable
  split
  · exact roomOk_of_eq (stateOf_quit_room st (some a)) h
  · exact roomOk_move st a h
  · exact roomOk_of_eq (stateOf_say_room st a).1 h
  · exact roomOk_of_eq rfl h

theorem roomOk_redispatch (st : ServerState) (h : RoomOk st) :
    RoomOk (stateOf (redispatch st)) := by
  unfold redispatch
  split
  · exact roomOk_of_eq (stateOf_say_room st _).1 h
  · split
    · exact roomOk_move st _ h
    · split
      · exact roomOk_of_eq (stateOf_quit_room st none) h
      · exact h

theorem roomOk_route (st : ServerState) (h : RoomOk st) :
    RoomOk (stateOf (route st)) := by
  have hd := roomOk_dispatchTable st ((pySplitSpace st.input_buffer).headD "")
      (pyJoinSpace ((pySplitSpace st.input_buffer).drop 1)) h
  simp only [route]
  split
  next e heq => rw [heq] at hd; exact hd
  next st1 heq => rw [heq] at hd; exact roomOk_redispatch st1 hd

theorem roomOk_loopBody (st : ServerState) (line : String) (h : RoomOk st) :
    RoomOk (stateOf (loopBody st line)) := by
  have hr := roomOk_route { st with input_buffer := line }
      (roomOk_of_eq rfl h)
  unfold loopBody
  split
  next e heq => rw [heq] at hr; exact hr
  next st1 heq =>
      rw [heq] at hr
      exact roomOk_of_eq (stateOf_push_room st1) hr

theorem roomOk_runLines (st : ServerState) (lines : List String)
    (h : RoomOk st) : RoomOk (runLines st lines) := by
  induction lines generalizing st with
  | nil => exact h
  | cons line rest ih =>
      unfold runLines
      have hl := roomOk_loopBody st line h
      split
      · exact h
      · split
        next st1 heq => rw [heq] at hl; exact ih st1 hl
        next e st1 heq => rw [heq] at hl; exact hl

/-- C8: every destination of the move dict is one of the rooms 0-3, and
for every sequence of routed input lines starting from room 0 the
session room stays in the room set 0-3 (the done flag is a Bool by
construction); this holds through normal returns and through escaping
exceptions alike. -/
theorem session_room_stays_in_graph (lines : List String) :
    (∀ e ∈ moves, e.2 ∈ ([0, 1, 2, 3] : List Int)) ∧
    (runLines initState lines).room ∈ ([0, 1, 2, 3] : List Int) := by
  refine ⟨by decide, ?_⟩
  exact roomOk_runLines initState lines (by decide)

end AdventureServer
